import Mathlib

/-!
Verification of the shadchat provider-adapter layer and send/retry
orchestrator, shallowly embedded in Lean 4.

The embedding models JavaScript strings by their character lists and
re-implements the handful of JS string primitives used by the code
(`toLowerCase`, `includes`, `replace`, `trim`, `slice`, `split`,
`startsWith`) as structurally recursive Lean functions, so that every
definition is executable and can be evaluated by the kernel.

Streaming network responses are modelled as a list of read events (decoded
text chunks, an abort signal, or a read failure); JSON parsing of a stream
line together with the vendor-specific token path is modelled as an oracle
`extract : String → Option String` returning the token text when the line
parses and the token field is a truthy (non-empty) string.  A thrown JS
exception is modelled as `Except.error`; the sequence of callback
invocations an adapter performs is recorded as a `List CbEvent`.
-/

/-! ## JS string primitive models (structural, kernel-evaluable) -/

/-- Char-list prefix test. -/
def isPrefixChars : List Char → List Char → Bool
  | [], _ => true
  | _ :: _, [] => false
  | a :: as, b :: bs => a == b && isPrefixChars as bs

/-- Char-list substring containment (JS `String.prototype.includes`). -/
def containsChars (l pat : List Char) : Bool :=
  (List.range (l.length + 1)).any (fun i => isPrefixChars pat (l.drop i))

/-- Replace the first occurrence of `pat` by `repl` (JS `String.prototype.replace`
with a string pattern replaces only the first occurrence). -/
def replaceFirstChars (pat repl : List Char) : List Char → List Char
  | [] => []
  | c :: rest =>
    if isPrefixChars pat (c :: rest) then repl ++ (c :: rest).drop pat.length
    else c :: replaceFirstChars pat repl rest

/-- Split on a single character (JS `String.prototype.split` with a
one-character separator); keeps empty segments. -/
def splitOnCharList (sep : Char) : List Char → List (List Char)
  | [] => [[]]
  | a :: rest =>
    if a == sep then [] :: splitOnCharList sep rest
    else
      match splitOnCharList sep rest with
      | [] => [[a]]
      | h :: t => (a :: h) :: t

/-- Strip whitespace from both ends (JS `String.prototype.trim`). -/
def trimChars (l : List Char) : List Char :=
  ((l.dropWhile Char.isWhitespace).reverse.dropWhile Char.isWhitespace).reverse

/-- JS `String.prototype.toLowerCase` (character-wise). -/
def strToLower (s : String) : String := ⟨s.data.map Char.toLower⟩

/-- JS `String.prototype.includes`. -/
def strContainsSub (s pat : String) : Bool := containsChars s.data pat.data

/-- JS `String.prototype.replace` with a string pattern (first occurrence). -/
def strReplaceFirst (s pat repl : String) : String := ⟨replaceFirstChars pat.data repl.data s.data⟩

/-- JS `String.prototype.trim`. -/
def strTrim (s : String) : String := ⟨trimChars s.data⟩

/-- JS `String.prototype.slice(n)`. -/
def strDrop (s : String) (n : Nat) : String := ⟨s.data.drop n⟩

/-- JS `String.prototype.slice(0, n)`. -/
def strTake (s : String) (n : Nat) : String := ⟨s.data.take n⟩

/-- JS `String.prototype.length` (character count). -/
def strLength (s : String) : Nat := s.data.length

/-- JS `String.prototype.startsWith`. -/
def strStartsWith (s pat : String) : Bool := isPrefixChars pat.data s.data

/-- JS `String.prototype.split` on a newline. -/
def strSplitLines (s : String) : List String := (splitOnCharList '\n' s.data).map (fun l => ⟨l⟩)

/-- Concatenation of a list of strings. -/
def strJoin : List String → String
  | [] => ""
  | s :: rest => s ++ strJoin rest

/-- JS truthiness of an optional string (`undefined` and `""` are falsy). -/
def optTruthy : Option String → Bool
  | none => false
  | some s => !(s == "")

/-- JS `Array.prototype.findIndex`, returning `none` for `-1`. -/
def jsFindIndex {α : Type} (p : α → Bool) : List α → Option Nat
  | [] => none
  | a :: as => if p a then some 0 else (jsFindIndex p as).map (· + 1)

/-! ## Data model (src/types/index.ts) -/

/-- Message role. -/
inductive Role where
  | user
  | assistant
  | system
deriving DecidableEq

/-- Attachment record. -/
structure Attachment where
  id : String
  type : String
  name : String
  mimeType : String
  size : Nat
  data : String
deriving DecidableEq

/-- Message record; the numeric `timing` field is modelled over `ℚ`. -/
structure Message where
  id : String
  role : Role
  content : String
  timestamp : Nat
  tokenCount : Option Nat := none
  timing : Option ℚ := none
  model : Option String := none
  attachments : Option (List Attachment) := none
deriving DecidableEq

/-- Conversation record. -/
structure Conversation where
  id : String
  title : String
  messages : List Message
  providerId : String
  modelId : String
  createdAt : Nat
  updatedAt : Nat
  totalCost : Option ℚ := none
  disableSystemPrompt : Option Bool := none
  pinned : Option Bool := none
  groupId : Option String := none
deriving DecidableEq

/-! ## Token and cost estimator (src/lib/storage.ts) -/

/-- `estimateTokens` from src/lib/storage.ts: `Math.ceil(text.length / 4)`
plus `1000` per attachment when the attachment list is present and
non-empty. -/
def estimateTokens (text : String) (attachments : Option (List Attachment) := none) : Nat :=
  let tokens := ⌈(strLength text : ℚ) / 4⌉₊
  match attachments with
  | some atts => if atts.length > 0 then tokens + atts.length * 1000 else tokens
  | none => tokens

/-- `calculateCost` from src/lib/storage.ts. -/
def calculateCost (inputTokens outputTokens inputPricePerMillion outputPricePerMillion : ℚ) : ℚ :=
  (inputTokens / 1000000) * inputPricePerMillion + (outputTokens / 1000000) * outputPricePerMillion

/-! ## Conversation storage (src/lib/storage.ts); the backing store is
modelled as the list of conversations held in local storage. -/

/-- `getConversation` from src/lib/storage.ts. -/
def getConversation (store : List Conversation) (id : String) : Option Conversation :=
  store.find? (fun c => c.id == id)

/-- `saveConversation` from src/lib/storage.ts: replace in place the entry
with the same id, otherwise `unshift` (prepend). -/
def saveConversation (store : List Conversation) (conversation : Conversation) : List Conversation :=
  match jsFindIndex (fun c => c.id == conversation.id) store with
  | some index => store.set index conversation
  | none => conversation :: store

/-- The id list of a stored conversation list. -/
def convIds (store : List Conversation) : List String := store.map (fun c => c.id)

/-- `createNewConversation` from src/lib/storage.ts (the fresh uuid is a
parameter). -/
def createNewConversation (newId providerId modelId : String) (now : Nat) : Conversation :=
  { id := newId, title := "New Chat", messages := [], providerId := providerId,
    modelId := modelId, createdAt := now, updatedAt := now, totalCost := some 0 }

/-- `generateConversationTitle` from src/lib/storage.ts. -/
def generateConversationTitle (firstMessage : String) : String :=
  let title := strTrim (strTake firstMessage 50)
  if strLength title < strLength firstMessage then title ++ "..." else title

/-! ## Streaming adapter model (src/lib/providers/*.ts, streamChat)

All six adapters share the same `streamChat` skeleton and differ only in
the vendor JSON token path (folded into the `extract` oracle) and in the
text of the error thrown on a non-success HTTP status. -/

/-- A recorded callback invocation. -/
inductive CbEvent where
  | onToken (text : String)
  | onComplete (fullText : String)
  | onError (msg : String)
deriving DecidableEq

/-- One result of awaiting `reader.read()` (or the exception it raises):
a decoded text chunk, an abort of the request, or another read failure. -/
inductive ReadEvent where
  | chunk (s : String)
  | abortError
  | readError (msg : String)
deriving DecidableEq

/-- The chat-completion HTTP response: status flag, error body text, and
the streamed body (`none` models a missing body). The list of read events
ends with an implicit `done` unless an exception event occurs first. -/
structure HttpResponse where
  ok : Bool
  errorText : String
  body : Option (List ReadEvent)

/-- Processing of one line of a chunk (the body of the `for` loop over
`chunk.split(newline)`): a `data: ` line that is not the `[DONE]` sentinel
is parsed; a truthy token text is appended to the accumulator and emitted
through `onToken`; parse failures and falsy token fields are skipped. -/
def processLine (extract : String → Option String) (acc : String) (line : String) :
    String × List CbEvent :=
  if strStartsWith line ("data: ") then
    let jsonStr := strDrop line 6
    if strTrim jsonStr == "[DONE]" then (acc, [])
    else
      match extract jsonStr with
      | some text => if text == "" then (acc, []) else (acc ++ text, [CbEvent.onToken text])
      | none => (acc, [])
  else (acc, [])

/-- Fold step threading the accumulator and the emitted events. -/
def lineStep (extract : String → Option String) (st : String × List CbEvent) (line : String) :
    String × List CbEvent :=
  let r := processLine extract st.1 line
  (r.1, st.2 ++ r.2)

/-- Processing of one decoded chunk: split on newlines, process each line. -/
def processChunk (extract : String → Option String) (acc : String) (chunk : String) :
    String × List CbEvent :=
  (strSplitLines chunk).foldl (lineStep extract) (acc, [])

/-- The read loop together with its surrounding `try`/`catch`: on `done`
(event list exhausted) calls `onComplete` with the accumulated text; a
raised `AbortError` is also answered by `onComplete` with the partial
accumulated text; any other read failure is answered by `onError`. -/
def readLoop (extract : String → Option String) :
    List ReadEvent → String → List CbEvent → List CbEvent
  | [], acc, evs => evs ++ [CbEvent.onComplete acc]
  | ReadEvent.chunk s :: rest, acc, evs =>
    let r := processChunk extract acc s
    readLoop extract rest r.1 (evs ++ r.2)
  | ReadEvent.abortError :: _, acc, evs => evs ++ [CbEvent.onComplete acc]
  | ReadEvent.readError msg :: _, _, evs => evs ++ [CbEvent.onError msg]

/-- The common `streamChat` skeleton: on a non-success HTTP status the
adapter throws (`Except.error`) the vendor error text, before the
`try`/`catch` begins; likewise it throws on a missing response body; only
then does the guarded read loop run. `errorHead` is the vendor text put in
front of the error body. -/
def streamChatRun (extract : String → Option String) (errorHead : String)
    (resp : HttpResponse) : Except String (List CbEvent) :=
  if !resp.ok then Except.error (errorHead ++ resp.errorText)
  else
    match resp.body with
    | none => Except.error ("No response body")
    | some events => Except.ok (readLoop extract events ("") [])

/-- `streamChat` of the xAI adapter (src/lib/providers/xai.ts). -/
def xaiStreamChat (extract : String → Option String) : HttpResponse → Except String (List CbEvent) :=
  streamChatRun extract ("xAI API error: ")

/-- `streamChat` of the OpenAI adapter. -/
def openaiStreamChat (extract : String → Option String) : HttpResponse → Except String (List CbEvent) :=
  streamChatRun extract ("OpenAI API error: ")

/-- `streamChat` of the Groq adapter. -/
def groqStreamChat (extract : String → Option String) : HttpResponse → Except String (List CbEvent) :=
  streamChatRun extract ("Groq API error: ")

/-- `streamChat` of the OpenRouter adapter. -/
def openrouterStreamChat (extract : String → Option String) : HttpResponse → Except String (List CbEvent) :=
  streamChatRun extract ("OpenRouter API error: ")

/-- `streamChat` of the Gemini adapter. -/
def geminiStreamChat (extract : String → Option String) : HttpResponse → Except String (List CbEvent) :=
  streamChatRun extract ("Gemini API error: ")

/-- `streamChat` of the Anthropic adapter. -/
def anthropicStreamChat (extract : String → Option String) : HttpResponse → Except String (List CbEvent) :=
  streamChatRun extract ("Anthropic API error: ")

/-- Number of `onComplete` invocations in a callback record. -/
def countComplete (evs : List CbEvent) : Nat :=
  evs.countP (fun e => match e with | CbEvent.onComplete _ => true | _ => false)

/-- Number of `onError` invocations in a callback record. -/
def countError (evs : List CbEvent) : Nat :=
  evs.countP (fun e => match e with | CbEvent.onError _ => true | _ => false)

/-! ## Pricing (src/lib/providers/*.ts, getModelPricing / estimateCost) -/

/-- A pricing tier: dollars per million input and output tokens. -/
structure Pricing where
  input : ℚ
  output : ℚ
deriving DecidableEq

/-- The `for (const [key, pricing] of Object.entries(TABLE))` lookup loop
shared by the vendor `getModelPricing` helpers; `test` is the loop guard
applied to the table key, and the fallback tier is returned when no entry
matches. -/
def pricingLoop (test : String → Bool) : List (String × Pricing) → Pricing → Pricing
  | [], dflt => dflt
  | entry :: rest, dflt => if test entry.1 then entry.2 else pricingLoop test rest dflt

/-- XAI_PRICING table (entries in declaration order). -/
def XAI_PRICING : List (String × Pricing) :=
  [("grok-2", ⟨2, 10⟩), ("grok-2-mini", ⟨1/5, 1⟩), ("grok-beta", ⟨5, 15⟩)]

/-- `getModelPricing` of the xAI adapter: case-insensitive containment of
the table key in the model id, declaration order, default `(2, 10)`. -/
def xaiGetModelPricing (modelId : String) : Pricing :=
  pricingLoop (fun key => strContainsSub (strToLower modelId) (strToLower key)) XAI_PRICING ⟨2, 10⟩

/-- OPENAI_PRICING table. -/
def OPENAI_PRICING : List (String × Pricing) :=
  [("gpt-4o", ⟨5/2, 10⟩), ("gpt-4o-mini", ⟨3/20, 3/5⟩), ("gpt-4-turbo", ⟨10, 30⟩),
   ("gpt-4", ⟨30, 60⟩), ("gpt-3.5-turbo", ⟨1/2, 3/2⟩), ("o1", ⟨15, 60⟩),
   ("o1-mini", ⟨3, 12⟩), ("o3-mini", ⟨11/10, 22/5⟩)]

/-- `getModelPricing` of the OpenAI adapter, default `(2.50, 10)`. -/
def openaiGetModelPricing (modelId : String) : Pricing :=
  pricingLoop (fun key => strContainsSub (strToLower modelId) (strToLower key)) OPENAI_PRICING ⟨5/2, 10⟩

/-- GROQ_PRICING table. -/
def GROQ_PRICING : List (String × Pricing) :=
  [("llama-3.3-70b", ⟨59/100, 79/100⟩), ("llama-3.1-70b", ⟨59/100, 79/100⟩),
   ("llama-3.1-8b", ⟨1/20, 2/25⟩), ("mixtral-8x7b", ⟨6/25, 6/25⟩), ("gemma2-9b", ⟨1/5, 1/5⟩)]

/-- `getModelPricing` of the Groq adapter, default `(0.10, 0.10)`. -/
def groqGetModelPricing (modelId : String) : Pricing :=
  pricingLoop (fun key => strContainsSub (strToLower modelId) (strToLower key)) GROQ_PRICING ⟨1/10, 1/10⟩

/-- GEMINI_PRICING table. -/
def GEMINI_PRICING : List (String × Pricing) :=
  [("gemini-2.5-pro", ⟨5/4, 10⟩), ("gemini-2.5-flash", ⟨3/20, 3/5⟩),
   ("gemini-2.0-flash", ⟨1/10, 2/5⟩), ("gemini-1.5-pro", ⟨5/4, 5⟩),
   ("gemini-1.5-flash", ⟨3/40, 3/10⟩), ("gemini-1.0-pro", ⟨1/2, 3/2⟩)]

/-- `getModelPricing` of the Gemini adapter: the containment test strips
the leading `gemini-` from the lowered table key before matching; default
is flash pricing `(0.15, 0.60)`. -/
def geminiGetModelPricing (modelId : String) : Pricing :=
  pricingLoop
    (fun key => strContainsSub (strToLower modelId) (strReplaceFirst (strToLower key) ("gemini-") ("")))
    GEMINI_PRICING ⟨3/20, 3/5⟩

/-- ANTHROPIC_PRICING table. -/
def ANTHROPIC_PRICING : List (String × Pricing) :=
  [("claude-3-5-sonnet", ⟨3, 15⟩), ("claude-3-5-haiku", ⟨1, 5⟩), ("claude-3-opus", ⟨15, 75⟩),
   ("claude-3-sonnet", ⟨3, 15⟩), ("claude-3-haiku", ⟨1/4, 5/4⟩)]

/-- `getModelPricing` of the Anthropic adapter: the containment test strips
the leading `claude-` from the (not lowered) table key; default is Sonnet
pricing `(3, 15)`. -/
def anthropicGetModelPricing (modelId : String) : Pricing :=
  pricingLoop
    (fun key => strContainsSub (strToLower modelId) (strReplaceFirst key ("claude-") ("")))
    ANTHROPIC_PRICING ⟨3, 15⟩

/-- `estimateCost` of the xAI adapter. -/
def xaiEstimateCost (inputTokens outputTokens : ℚ) (modelId : String) : ℚ :=
  calculateCost inputTokens outputTokens (xaiGetModelPricing modelId).input
    (xaiGetModelPricing modelId).output

/-- `estimateCost` of the OpenAI adapter. -/
def openaiEstimateCost (inputTokens outputTokens : ℚ) (modelId : String) : ℚ :=
  calculateCost inputTokens outputTokens (openaiGetModelPricing modelId).input
    (openaiGetModelPricing modelId).output

/-- `estimateCost` of the Groq adapter. -/
def groqEstimateCost (inputTokens outputTokens : ℚ) (modelId : String) : ℚ :=
  calculateCost inputTokens outputTokens (groqGetModelPricing modelId).input
    (groqGetModelPricing modelId).output

/-- `estimateCost` of the Gemini adapter. -/
def geminiEstimateCost (inputTokens outputTokens : ℚ) (modelId : String) : ℚ :=
  calculateCost inputTokens outputTokens (geminiGetModelPricing modelId).input
    (geminiGetModelPricing modelId).output

/-- `estimateCost` of the Anthropic adapter. -/
def anthropicEstimateCost (inputTokens outputTokens : ℚ) (modelId : String) : ℚ :=
  calculateCost inputTokens outputTokens (anthropicGetModelPricing modelId).input
    (anthropicGetModelPricing modelId).output

/-- `estimateCost` of the OpenRouter adapter: ignores the model id and
always uses the fixed fallback tier `(1.0, 2.0)`. -/
def openrouterEstimateCost (inputTokens outputTokens : ℚ) (_modelId : String) : ℚ :=
  calculateCost inputTokens outputTokens 1 2

/-- The pricing lookup that the specification wording describes: test
whether the model id contains each table key itself (read
case-insensitively), in declaration order, first match wins, vendor
default when no key matches. -/
def claimFirstMatchPricing (table : List (String × Pricing)) (dflt : Pricing)
    (modelId : String) : Pricing :=
  match table.find? (fun kv => strContainsSub (strToLower modelId) (strToLower kv.1)) with
  | some kv => kv.2
  | none => dflt

/-! ## Send/Retry orchestrator (src/app/page.tsx)

The React component state enters as parameters; fresh uuids and `Date.now()`
readings are parameters as well.  Each handler is modelled by the pure
computation it performs up to the point where the network request starts
(conversation update, outbound message list, placeholder id), returning
`none` on the guard paths that bail out without starting a request.  The
built-in fallback system-prompt literals are passed as parameters. -/

/-- The state prepared by `handleSend` before the network call. -/
structure SendPrepared where
  conv : Conversation
  apiMessages : List Message
  placeholderId : String
deriving DecidableEq

/-- The state prepared by `handleRetry` before the network call. -/
structure RetryPrepared where
  conv : Conversation
  apiMessages : List Message
  placeholderId : String
deriving DecidableEq

/-- The state prepared by `handleContinueWithoutSystemPrompt` before the
network call. -/
structure ContinuePrepared where
  placeholderId : String
  apiMessages : List Message
deriving DecidableEq

/-- The synthesized system message prepended to the outbound list. -/
def systemMessage (content : String) (now : Nat) : Message :=
  { id := "system", role := Role.system, content := content, timestamp := now }

/-- `userSystemPrompt && userSystemPrompt.trim().length > 0 ? userSystemPrompt
: fallback`. -/
def chooseSystemPrompt (userSystemPrompt : Option String) (fallbackPrompt : String) : String :=
  match userSystemPrompt with
  | some p => if strLength (strTrim p) > 0 then p else fallbackPrompt
  | none => fallbackPrompt

/-- `if (!conv.disableSystemPrompt) { apiMessages = [systemMessage, ...apiMessages] }`. -/
def withSystemPromptPolicy (disable : Option Bool) (sysPrompt : String) (now : Nat)
    (apiMessages : List Message) : List Message :=
  if disable.getD false then apiMessages else systemMessage sysPrompt now :: apiMessages

/-- The fresh assistant placeholder message created by Send and Retry. -/
def placeholderMessage (asstMsgId : String) (now : Nat) : Message :=
  { id := asstMsgId, role := Role.assistant, content := "", timestamp := now }

/-- The conversation update `handleSend` performs (append user message and
placeholder, refresh title on first message, stamp model/provider). -/
def sendUpdatedConv (currentConv : Conversation) (userMessage assistantMessage : Message)
    (content selectedModel selectedProvider : String) (now : Nat) : Conversation :=
  { currentConv with
    messages := currentConv.messages ++ [userMessage, assistantMessage],
    title := if currentConv.messages.length == 0 then generateConversationTitle content
             else currentConv.title,
    updatedAt := now, modelId := selectedModel, providerId := selectedProvider }

/-- `handleSend` up to the network call: the missing-key / missing-model
guard bails out first (`none`, the configuration error path); otherwise the
user message and the empty assistant placeholder are appended, the
conversation is saved, and the outbound list (minus the placeholder, plus
the system message unless `disableSystemPrompt` is truthy) is built. -/
def handleSend (apiKey : Option String) (selectedModel selectedProvider : String)
    (conversation : Option Conversation) (content : String)
    (attachments : Option (List Attachment)) (newConvId userMsgId asstMsgId : String)
    (now : Nat) (prefSystemPrompt : Option String) (fallbackPrompt : String) :
    Option SendPrepared :=
  if !optTruthy apiKey || selectedModel == "" then none
  else
    let currentConv := match conversation with
      | some c => c
      | none => createNewConversation newConvId selectedProvider selectedModel now
    let userMessage : Message :=
      { id := userMsgId, role := Role.user, content := content, timestamp := now,
        tokenCount := some (estimateTokens content attachments), attachments := attachments }
    let assistantMessage := placeholderMessage asstMsgId now
    let updatedConv :=
      sendUpdatedConv currentConv userMessage assistantMessage content selectedModel
        selectedProvider now
    let apiMessages := (currentConv.messages ++ [userMessage, assistantMessage]).dropLast
    let sysPrompt := chooseSystemPrompt prefSystemPrompt fallbackPrompt
    some { conv := updatedConv,
           apiMessages :=
             withSystemPromptPolicy currentConv.disableSystemPrompt sysPrompt now apiMessages,
           placeholderId := asstMsgId }

/-- The conversation update `handleRetry` performs before the request:
truncate to the target message (inclusive) and append a fresh placeholder. -/
def retryUpdatedConv (conv : Conversation) (index : Nat) (asstMsgId : String) (now : Nat) :
    Conversation :=
  { conv with
    messages := conv.messages.take (index + 1) ++ [placeholderMessage asstMsgId now],
    updatedAt := now }

/-- `handleRetry` up to the network call: locate the target message by id
(`findIndex`), check key and model, truncate, create the placeholder, and
replay the system-prompt policy with the current `disableSystemPrompt`. -/
def handleRetry (conversation : Option Conversation) (messageId : String)
    (apiKey : Option String) (selectedModel : String) (asstMsgId : String) (now : Nat)
    (prefSystemPrompt : Option String) (retryFallbackPrompt : String) :
    Option RetryPrepared :=
  match conversation with
  | none => none
  | some conv =>
    match jsFindIndex (fun m => m.id == messageId) conv.messages with
    | none => none
    | some index =>
      if !optTruthy apiKey || selectedModel == "" then none
      else
        let updatedConv := retryUpdatedConv conv index asstMsgId now
        let sysPrompt := chooseSystemPrompt prefSystemPrompt retryFallbackPrompt
        some { conv := updatedConv,
               apiMessages :=
                 withSystemPromptPolicy updatedConv.disableSystemPrompt sysPrompt now
                   (conv.messages.take (index + 1)),
               placeholderId := asstMsgId }

/-- `handleContinueWithoutSystemPrompt` up to the network call: requires a
conversation whose last message is the assistant placeholder and a stored
key; reuses the last message (no new id) and re-sends the history without
it and with no system message prepended. -/
def handleContinueWithoutSystemPrompt (conversation : Option Conversation)
    (apiKey : Option String) : Option ContinuePrepared :=
  match conversation with
  | none => none
  | some conv =>
    match conv.messages.getLast? with
    | none => none
    | some lastMessage =>
      if !(lastMessage.role == Role.assistant) then none
      else if !optTruthy apiKey then none
      else some { placeholderId := lastMessage.id, apiMessages := conv.messages.dropLast }

/-- The conversation update performed by the `onComplete` callback of Send
and Retry: fill the placeholder, bump the total cost, save. -/
def finalizeOnComplete (conv : Conversation) (placeholderId respText : String)
    (outputTokens : Nat) (duration : ℚ) (selectedModel : String) (cost : ℚ) : Conversation :=
  { conv with
    messages := conv.messages.map (fun m =>
      if m.id == placeholderId then
        { m with
          content := respText, tokenCount := some outputTokens,
          timing := some duration, model := some selectedModel }
      else m),
    totalCost := some (conv.totalCost.getD 0 + cost) }

/-- The conversation update performed by the `onComplete` callback of
`handleContinueWithoutSystemPrompt`: like finalization, and additionally
persists `disableSystemPrompt := true`. -/
def continueOnComplete (conv : Conversation) (placeholderId respText : String)
    (outputTokens : Nat) (duration : ℚ) (selectedModel : String) (cost : ℚ) : Conversation :=
  { conv with
    messages := conv.messages.map (fun m =>
      if m.id == placeholderId then
        { m with
          content := respText, tokenCount := some outputTokens,
          timing := some duration, model := some selectedModel }
      else m),
    totalCost := some (conv.totalCost.getD 0 + cost),
    disableSystemPrompt := some true }

/-! ## Helper lemmas -/

/-- Ceiling of a natural number divided by four, as natural division. -/
theorem ceil_quarter (l : ℕ) : ⌈((l : ℚ)) / 4⌉₊ = (l + 3) / 4 := by
  apply le_antisymm
  · apply Nat.ceil_le.2
    rw [div_le_iff₀ (by norm_num : (0:ℚ) < 4)]
    have h : (l : ℕ) ≤ ((l + 3) / 4) * 4 := by omega
    exact_mod_cast h
  · rcases Nat.eq_zero_or_pos ((l + 3) / 4) with h | h
    · rw [h]; exact Nat.zero_le _
    · obtain ⟨k, hk⟩ : ∃ k, (l + 3) / 4 = k + 1 := ⟨(l + 3) / 4 - 1, by omega⟩
      rw [hk]
      have hkl : (k : ℚ) < (l : ℚ) / 4 := by
        rw [lt_div_iff₀ (by norm_num : (0:ℚ) < 4)]
        exact_mod_cast (by omega : k * 4 < l)
      exact Nat.lt_ceil.2 hkl

/-- Closed form of the token estimate. -/
theorem estimateTokens_closed_form (text : String) (attachments : Option (List Attachment)) :
    estimateTokens text attachments
      = (strLength text + 3) / 4
        + 1000 * (match attachments with | some l => l.length | none => 0) := by
  unfold estimateTokens
  cases attachments with
  | none => simp [ceil_quarter]
  | some atts =>
    by_cases h : atts.length > 0
    · simp only [h, if_true, ceil_quarter]
      omega
    · have h0 : atts.length = 0 := by omega
      simp [h0, ceil_quarter]

/-- `jsFindIndex` misses exactly when no element satisfies the predicate. -/
theorem jsFindIndex_eq_none_iff {α : Type} (p : α → Bool) (l : List α) :
    jsFindIndex p l = none ↔ ∀ a ∈ l, p a = false := by
  induction l with
  | nil => simp [jsFindIndex]
  | cons a as ih =>
    by_cases h : p a
    · simp [jsFindIndex, h]
    · have hpa : p a = false := by simpa using h
      constructor
      · intro hn
        refine List.forall_mem_cons.2 ⟨hpa, ih.1 ?_⟩
        simpa [jsFindIndex, hpa] using hn
      · intro hall
        have hrest := ih.2 (List.forall_mem_cons.1 hall).2
        simp [jsFindIndex, hpa, hrest]

/-- A hit of `jsFindIndex` is a first hit. -/
theorem jsFindIndex_some_spec {α : Type} (p : α → Bool) :
    ∀ (l : List α) (i : Nat), jsFindIndex p l = some i →
      ∃ a, l[i]? = some a ∧ p a = true ∧ ∀ j, j < i → ∀ b, l[j]? = some b → p b = false
  | [], i, h => by simp [jsFindIndex] at h
  | a :: as, i, h => by
    cases hp : p a with
    | true =>
      simp [jsFindIndex, hp] at h
      subst h
      exact ⟨a, by simp, hp, fun j hj => absurd hj (Nat.not_lt_zero j)⟩
    | false =>
      simp [jsFindIndex, hp] at h
      obtain ⟨k, hk, hki⟩ := h
      subst hki
      obtain ⟨b, hb, hpb, hfirst⟩ := jsFindIndex_some_spec p as k hk
      refine ⟨b, by simpa using hb, hpb, ?_⟩
      intro j hj c hc
      cases j with
      | zero =>
        simp only [List.getElem?_cons_zero, Option.some.injEq] at hc
        subst hc
        exact hp
      | succ j' =>
        exact hfirst j' (by omega) c (by simpa using hc)

/-- Conversely, a first hit is found by `jsFindIndex`. -/
theorem jsFindIndex_of_first {α : Type} (p : α → Bool) :
    ∀ (l : List α) (i : Nat) (a : α), l[i]? = some a → p a = true →
      (∀ j, j < i → ∀ b, l[j]? = some b → p b = false) → jsFindIndex p l = some i
  | [], i, a, h, _, _ => by simp at h
  | x :: xs, 0, a, h, hpa, _ => by
    simp only [List.getElem?_cons_zero, Option.some.injEq] at h
    subst h
    simp [jsFindIndex, hpa]
  | x :: xs, i + 1, a, h, hpa, hfirst => by
    have hpx : p x = false := hfirst 0 (Nat.succ_pos i) x (by simp)
    have ih := jsFindIndex_of_first p xs i a (by simpa using h) hpa
      (fun j hj b hb => hfirst (j + 1) (by omega) b (by simpa using hb))
    simp [jsFindIndex, hpx, ih]

/-- An index that holds a value is in range. -/
theorem getElem?_some_lt {α : Type} : ∀ (l : List α) (i : Nat) (a : α),
    l[i]? = some a → i < l.length
  | [], _, _, h => by simp at h
  | _ :: _, 0, _, _ => Nat.succ_pos _
  | _ :: xs, i + 1, a, h => Nat.succ_lt_succ (getElem?_some_lt xs i a (by simpa using h))

/-- Writing back the value already stored leaves the list unchanged. -/
theorem set_self_of_getElem? {α : Type} : ∀ (l : List α) (i : Nat) (a : α),
    l[i]? = some a → l.set i a = l
  | [], _, _, _ => by simp
  | x :: xs, 0, a, h => by
    simp only [List.getElem?_cons_zero, Option.some.injEq] at h
    subst h
    rfl
  | x :: xs, i + 1, a, h => by
    have ih := set_self_of_getElem? xs i a (by simpa using h)
    show x :: xs.set i a = x :: xs
    rw [ih]

/-- Reading back a written index. -/
theorem getElem?_set_eq_of_lt {α : Type} : ∀ (l : List α) (i : Nat) (a : α),
    i < l.length → (l.set i a)[i]? = some a
  | [], _, _, h => absurd h (by simp)
  | x :: xs, 0, a, _ => by simp
  | x :: xs, i + 1, a, h => by
    simpa using getElem?_set_eq_of_lt xs i a (by simpa using h)

/-- Reading an index other than the written one. -/
theorem getElem?_set_ne {α : Type} : ∀ (l : List α) (i j : Nat) (a : α),
    j ≠ i → (l.set i a)[j]? = l[j]?
  | [], _, _, _, _ => by simp
  | x :: xs, 0, 0, a, h => absurd rfl h
  | x :: xs, 0, j + 1, a, _ => by simp
  | x :: xs, i + 1, 0, a, _ => by simp
  | x :: xs, i + 1, j + 1, a, h => by
    simpa using getElem?_set_ne xs i j a (by omega)

/-- `find?` over a list whose first-hit index was overwritten by a value
that itself satisfies the predicate returns that value. -/
theorem find?_set_of_first {α : Type} (p : α → Bool) :
    ∀ (l : List α) (i : Nat) (c a : α), l[i]? = some a → p c = true →
      (∀ j, j < i → ∀ b, l[j]? = some b → p b = false) → (l.set i c).find? p = some c
  | [], _, _, _, h, _, _ => by simp at h
  | x :: xs, 0, c, a, _, hpc, _ => by
    show (c :: xs).find? p = some c
    exact List.find?_cons_of_pos _ hpc
  | x :: xs, i + 1, c, a, h, hpc, hfirst => by
    have hpx : p x = false := hfirst 0 (Nat.succ_pos i) x (by simp)
    show (x :: xs.set i c).find? p = some c
    rw [List.find?_cons_of_neg _ (by simp [hpx])]
    exact find?_set_of_first p xs i c a (by simpa using h) hpc
      (fun j hj b hb => hfirst (j + 1) (by omega) b (by simpa using hb))

/-- C9: immediately after `saveConversation c`, `getConversation c.id`
returns `c`; `saveConversation` replaces in place when an entry with the
same id exists and otherwise prepends, so it preserves uniqueness of the
stored ids; and saving the same conversation twice equals saving it once. -/
theorem c9_saveConversation_props (store : List Conversation) (c : Conversation) :
    getConversation (saveConversation store c) c.id = some c
    ∧ ((convIds store).Nodup → (convIds (saveConversation store c)).Nodup)
    ∧ saveConversation (saveConversation store c) c = saveConversation store c := by
  cases hf : jsFindIndex (fun x => x.id == c.id) store with
  | none =>
    have hsave : saveConversation store c = c :: store := by
      unfold saveConversation
      rw [hf]
    refine ⟨?_, ?_, ?_⟩
    · rw [hsave]
      unfold getConversation
      exact List.find?_cons_of_pos _ (by simp)
    · intro hnd
      have hall := (jsFindIndex_eq_none_iff (fun x => x.id == c.id) store).1 hf
      rw [hsave]
      unfold convIds
      rw [List.map_cons]
      refine List.nodup_cons.2 ⟨?_, hnd⟩
      intro hmem
      obtain ⟨x, hx, hxid⟩ := List.mem_map.1 hmem
      have hfx := hall x hx
      simp [hxid] at hfx
    · rw [hsave]
      have h0 : jsFindIndex (fun x => x.id == c.id) (c :: store) = some 0 := by
        simp [jsFindIndex]
      unfold saveConversation
      rw [h0]
      rfl
  | some i =>
    obtain ⟨a, ha, hpa, hfirst⟩ := jsFindIndex_some_spec (fun x => x.id == c.id) store i hf
    have hsave : saveConversation store c = store.set i c := by
      unfold saveConversation
      rw [hf]
    refine ⟨?_, ?_, ?_⟩
    · rw [hsave]
      unfold getConversation
      exact find?_set_of_first (fun x => x.id == c.id) store i c a ha (by simp) hfirst
    · intro hnd
      have haid : a.id = c.id := by simpa using hpa
      have hids : convIds (store.set i c) = convIds store := by
        unfold convIds
        rw [List.map_set]
        refine set_self_of_getElem? _ i _ ?_
        rw [List.getElem?_map, ha]
        simp [haid]
      rw [hsave, hids]
      exact hnd
    · rw [hsave]
      have hset : (store.set i c)[i]? = some c :=
        getElem?_set_eq_of_lt store i c (getElem?_some_lt store i a ha)
      have hfirst2 : ∀ j, j < i → ∀ b, (store.set i c)[j]? = some b →
          (fun x : Conversation => x.id == c.id) b = false := by
        intro j hj b hb
        exact hfirst j hj b (by rwa [getElem?_set_ne store i j c (by omega)] at hb)
      have h2 : jsFindIndex (fun x => x.id == c.id) (store.set i c) = some i :=
        jsFindIndex_of_first (fun x => x.id == c.id) (store.set i c) i c hset (by simp) hfirst2
      unfold saveConversation
      rw [h2]
      show (store.set i c).set i c = store.set i c
      rw [List.set_set]

/-- Left identity of string append. -/
theorem str_empty_append (s : String) : "" ++ s = s := by
  obtain ⟨d⟩ := s
  rfl

/-- `strJoin` distributes over list append. -/
theorem strJoin_append : ∀ (a b : List String), strJoin (a ++ b) = strJoin a ++ strJoin b
  | [], b => by
    rw [List.nil_append]
    exact (str_empty_append (strJoin b)).symm
  | s :: a, b => by
    rw [List.cons_append]
    show s ++ strJoin (a ++ b) = s ++ strJoin a ++ strJoin b
    rw [strJoin_append a b, String.append_assoc]

/-- A line either contributes nothing or appends exactly one non-empty
token to the accumulator and emits it. -/
theorem processLine_cases (extract : String → Option String) (acc line : String) :
    processLine extract acc line = (acc, [])
    ∨ ∃ t, processLine extract acc line = (acc ++ t, [CbEvent.onToken t]) := by
  unfold processLine
  by_cases h1 : strStartsWith line ("data: ") = true
  · simp only [h1, if_true]
    by_cases h2 : (strTrim (strDrop line 6) == "[DONE]") = true
    · simp [h2]
    · simp only [h2, if_false, Bool.false_eq_true]
      cases hx : extract (strDrop line 6) with
      | none => simp [h2, hx]
      | some t =>
        by_cases h3 : (t == "") = true
        · simp [h2, hx, h3]
        · right
          exact ⟨t, by simp [h2, hx, h3]⟩
  · simp [h1]

/-- Folding the per-line step over any line list: the accumulator grows by
the concatenation of the emitted tokens and the event list by exactly the
corresponding `onToken` events, in order. -/
theorem lineStep_foldl_ex (extract : String → Option String) :
    ∀ (lines : List String) (acc : String) (evs : List CbEvent),
      ∃ toks : List String,
        lines.foldl (lineStep extract) (acc, evs)
          = (acc ++ strJoin toks, evs ++ toks.map CbEvent.onToken)
  | [], acc, evs => ⟨[], by simp [strJoin, String.append_empty]⟩
  | line :: rest, acc, evs => by
    rcases processLine_cases extract acc line with h | ⟨t, h⟩
    · obtain ⟨toks, ih⟩ := lineStep_foldl_ex extract rest acc evs
      refine ⟨toks, ?_⟩
      rw [List.foldl_cons]
      have hstep : lineStep extract (acc, evs) line = (acc, evs) := by
        simp [lineStep, h]
      rw [hstep, ih]
    · obtain ⟨toks, ih⟩ := lineStep_foldl_ex extract rest (acc ++ t) (evs ++ [CbEvent.onToken t])
      refine ⟨t :: toks, ?_⟩
      rw [List.foldl_cons]
      have hstep : lineStep extract (acc, evs) line = (acc ++ t, evs ++ [CbEvent.onToken t]) := by
        simp [lineStep, h]
      rw [hstep, ih]
      rw [Prod.mk.injEq]
      constructor
      · show acc ++ t ++ strJoin toks = acc ++ strJoin (t :: toks)
        rw [String.append_assoc]
        rfl
      · simp

/-- Chunk processing, specialised to an empty initial event list. -/
theorem processChunk_ex (extract : String → Option String) (acc chunk : String) :
    ∃ toks : List String,
      processChunk extract acc chunk = (acc ++ strJoin toks, toks.map CbEvent.onToken) := by
  obtain ⟨toks, h⟩ := lineStep_foldl_ex extract (strSplitLines chunk) acc []
  exact ⟨toks, by simpa [processChunk] using h⟩

/-- In a run whose reads are chunks followed by a raised `AbortError`, the
read loop emits the token events of the chunks and then completes once
with everything accumulated. -/
theorem readLoop_abort_ex (extract : String → Option String) :
    ∀ (cs : List String) (rest : List ReadEvent) (acc : String) (evs : List CbEvent),
      ∃ toks : List String,
        readLoop extract (cs.map ReadEvent.chunk ++ ReadEvent.abortError :: rest) acc evs
          = evs ++ toks.map CbEvent.onToken ++ [CbEvent.onComplete (acc ++ strJoin toks)]
  | [], rest, acc, evs => ⟨[], by simp [readLoop, strJoin, String.append_empty]⟩
  | c :: cs, rest, acc, evs => by
    obtain ⟨toks1, h1⟩ := processChunk_ex extract acc c
    obtain ⟨toks2, h2⟩ := readLoop_abort_ex extract cs rest (acc ++ strJoin toks1)
      (evs ++ toks1.map CbEvent.onToken)
    refine ⟨toks1 ++ toks2, ?_⟩
    rw [List.map_cons, List.cons_append]
    show readLoop extract (ReadEvent.chunk c :: (cs.map ReadEvent.chunk
        ++ ReadEvent.abortError :: rest)) acc evs = _
    simp only [readLoop]
    rw [h1, h2, strJoin_append, List.map_append]
    simp [String.append_assoc, List.append_assoc]

/-- In a run whose reads are chunks followed by a raised non-abort error,
the read loop emits the token events of the chunks and then errors once. -/
theorem readLoop_readError_ex (extract : String → Option String) :
    ∀ (cs : List String) (msg : String) (rest : List ReadEvent) (acc : String)
      (evs : List CbEvent),
      ∃ toks : List String,
        readLoop extract (cs.map ReadEvent.chunk ++ ReadEvent.readError msg :: rest) acc evs
          = evs ++ toks.map CbEvent.onToken ++ [CbEvent.onError msg]
  | [], msg, rest, acc, evs => ⟨[], by simp [readLoop]⟩
  | c :: cs, msg, rest, acc, evs => by
    obtain ⟨toks1, h1⟩ := processChunk_ex extract acc c
    obtain ⟨toks2, h2⟩ := readLoop_readError_ex extract cs msg rest (acc ++ strJoin toks1)
      (evs ++ toks1.map CbEvent.onToken)
    refine ⟨toks1 ++ toks2, ?_⟩
    rw [List.map_cons, List.cons_append]
    show readLoop extract (ReadEvent.chunk c :: (cs.map ReadEvent.chunk
        ++ ReadEvent.readError msg :: rest)) acc evs = _
    simp only [readLoop]
    rw [h1, h2, List.map_append]
    simp [List.append_assoc]

/-- Token events are not completions. -/
theorem countComplete_tokens (toks : List String) :
    countComplete (toks.map CbEvent.onToken) = 0 := by
  simp [countComplete, List.countP_map]

/-- Token events are not errors. -/
theorem countError_tokens (toks : List String) :
    countError (toks.map CbEvent.onToken) = 0 := by
  simp [countError, List.countP_map]

/-- `countComplete` is additive. -/
theorem countComplete_append (a b : List CbEvent) :
    countComplete (a ++ b) = countComplete a + countComplete b :=
  List.countP_append _ _ _

/-- `countError` is additive. -/
theorem countError_append (a b : List CbEvent) :
    countError (a ++ b) = countError a + countError b :=
  List.countP_append _ _ _

/-- Every terminated read loop run performs exactly one terminal callback
more than were already recorded. -/
theorem readLoop_terminal_count (extract : String → Option String) :
    ∀ (events : List ReadEvent) (acc : String) (evs : List CbEvent),
      countComplete (readLoop extract events acc evs)
        + countError (readLoop extract events acc evs)
        = (countComplete evs + countError evs) + 1
  | [], acc, evs => by
    simp [readLoop, countComplete, countError, List.countP_append]
    omega
  | ReadEvent.chunk c :: rest, acc, evs => by
    obtain ⟨toks, h1⟩ := processChunk_ex extract acc c
    have ih := readLoop_terminal_count extract rest
      (acc ++ strJoin toks) (evs ++ toks.map CbEvent.onToken)
    simp only [readLoop]
    rw [h1, ih, countComplete_append, countError_append, countComplete_tokens,
      countError_tokens]
    omega
  | ReadEvent.abortError :: rest, acc, evs => by
    simp [readLoop, countComplete, countError, List.countP_append]
    omega
  | ReadEvent.readError msg :: rest, acc, evs => by
    simp [readLoop, countComplete, countError, List.countP_append]
    omega

/-- C1: when the cancellation signal fires mid-stream (an AbortError is
raised while reading the response body, after any number of decoded
chunks), every adapter (that is, `streamChatRun` at any vendor error text
and any token-path oracle) calls `onComplete` exactly once, with the
concatenation of all token texts delivered before the cancellation, and
never calls `onError`. -/
theorem c1_cancel_completes (extract : String → Option String) (errorHead errText : String)
    (cs : List String) (rest : List ReadEvent) :
    ∃ toks : List String,
      streamChatRun extract errorHead
        { ok := true, errorText := errText,
          body := some (cs.map ReadEvent.chunk ++ ReadEvent.abortError :: rest) }
        = Except.ok (toks.map CbEvent.onToken ++ [CbEvent.onComplete (strJoin toks)])
      ∧ countComplete (toks.map CbEvent.onToken ++ [CbEvent.onComplete (strJoin toks)]) = 1
      ∧ countError (toks.map CbEvent.onToken ++ [CbEvent.onComplete (strJoin toks)]) = 0 := by
  obtain ⟨toks, h⟩ := readLoop_abort_ex extract cs rest ("") []
  refine ⟨toks, ?_, ?_, ?_⟩
  · show Except.ok (readLoop extract (cs.map ReadEvent.chunk ++ ReadEvent.abortError :: rest)
      ("") []) = _
    rw [h, str_empty_append, List.nil_append]
  · rw [countComplete_append, countComplete_tokens]
    simp [countComplete]
  · rw [countError_append, countError_tokens]
    simp [countError]

/-- C2 (amended): whenever the chat request returns a successful HTTP
status and a response body is present, a run of any adapter performs
exactly one terminal callback (`onComplete` or `onError`, never both,
never neither); a non-cancellation error raised while reading the stream
yields `onError` exactly once, after the token events; but on a
non-success HTTP status, and likewise on a missing body, the adapter
performs no callback at all and instead throws the error to its caller
(the vendor error text, respectively the no-response-body message). -/
theorem c2_terminal_callback_amended (extract : String → Option String)
    (errorHead : String) (resp : HttpResponse) :
    (resp.ok = true → ∀ events, resp.body = some events →
      ∃ tr, streamChatRun extract errorHead resp = Except.ok tr
        ∧ countComplete tr + countError tr = 1)
    ∧ (resp.ok = false →
        streamChatRun extract errorHead resp = Except.error (errorHead ++ resp.errorText))
    ∧ (resp.ok = true → resp.body = none →
        streamChatRun extract errorHead resp = Except.error ("No response body"))
    ∧ (∀ (cs : List String) (msg errText : String) (rest : List ReadEvent),
        ∃ toks : List String,
          streamChatRun extract errorHead
            { ok := true, errorText := errText,
              body := some (cs.map ReadEvent.chunk ++ ReadEvent.readError msg :: rest) }
            = Except.ok (toks.map CbEvent.onToken ++ [CbEvent.onError msg])
          ∧ countError (toks.map CbEvent.onToken ++ [CbEvent.onError msg]) = 1) := by
  refine ⟨?_, ?_, ?_, ?_⟩
  · intro hok events hbody
    refine ⟨readLoop extract events ("") [], ?_, ?_⟩
    · simp [streamChatRun, hok, hbody]
    · rw [readLoop_terminal_count]
      simp [countComplete, countError]
  · intro hok
    simp [streamChatRun, hok]
  · intro hok hbody
    simp [streamChatRun, hok, hbody]
  · intro cs msg errText rest
    obtain ⟨toks, h⟩ := readLoop_readError_ex extract cs msg rest ("") []
    refine ⟨toks, ?_, ?_⟩
    · show Except.ok (readLoop extract (cs.map ReadEvent.chunk
        ++ ReadEvent.readError msg :: rest) ("") []) = _
      rw [h, List.nil_append]
    · rw [countError_append, countError_tokens]
      simp [countError]

/-- C2 counterexample: at a concrete non-success HTTP response the xAI
adapter does not call `onError` (the claim requires exactly one `onError`
invocation); it performs no callbacks and throws the vendor error text. -/
theorem c2_counterexample :
    xaiStreamChat (fun _ => none)
        { ok := false, errorText := "Unauthorized", body := some [] }
      = Except.error ("xAI API error: Unauthorized")
    ∧ ¬ ∃ tr, xaiStreamChat (fun _ => none)
        { ok := false, errorText := "Unauthorized", body := some [] }
      = Except.ok tr ∧ countError tr = 1 := by
  refine ⟨rfl, ?_⟩
  rintro ⟨tr, htr, -⟩
  rw [(rfl : xaiStreamChat (fun _ => none)
      { ok := false, errorText := "Unauthorized", body := some [] }
    = Except.error ("xAI API error: Unauthorized"))] at htr
  exact Except.noConfusion htr

/-- Witness for the amended C2 at a concrete successful empty-bodied run. -/
theorem c2_terminal_callback_amended_witness :
    ∃ tr, streamChatRun (fun _ => none) ("xAI API error: ")
        { ok := true, errorText := "", body := some [] } = Except.ok tr
      ∧ countComplete tr + countError tr = 1 :=
  (c2_terminal_callback_amended (fun _ => none) ("xAI API error: ")
    { ok := true, errorText := "", body := some [] }).1 rfl [] rfl

/-- The vendor lookup loop returns the value of the first table entry whose
key passes the guard, and the fallback when none does. -/
theorem pricingLoop_eq_find (test : String → Bool) :
    ∀ (table : List (String × Pricing)) (dflt : Pricing),
      pricingLoop test table dflt
        = (match table.find? (fun kv => test kv.1) with
           | some kv => kv.2
           | none => dflt)
  | [], _ => rfl
  | entry :: rest, dflt => by
    cases ht : test entry.1 with
    | true =>
      have hf : (entry :: rest).find? (fun kv => test kv.1) = some entry :=
        List.find?_cons_of_pos _ (by simpa using ht)
      simp [pricingLoop, ht, hf]
    | false =>
      have hf : (entry :: rest).find? (fun kv => test kv.1)
          = rest.find? (fun kv => test kv.1) :=
        List.find?_cons_of_neg _ (by simp [ht])
      simp only [pricingLoop, ht, Bool.false_eq_true, if_false, hf]
      exact pricingLoop_eq_find test rest dflt

/-- C5 counterexample: the Gemini adapter resolves the pricing tier of
model id 2.5-pro to the gemini-2.5-pro table tier although the id contains
no table key (every Gemini key carries the gemini- prefix, which the code
strips before the containment test), while the lookup described by the
claim returns the default flash tier there; the two disagree. -/
theorem c5_counterexample :
    geminiGetModelPricing ("2.5-pro") = { input := 5/4, output := 10 }
    ∧ claimFirstMatchPricing GEMINI_PRICING { input := 3/20, output := 3/5 } ("2.5-pro")
        = { input := 3/20, output := 3/5 }
    ∧ geminiGetModelPricing ("2.5-pro")
        ≠ claimFirstMatchPricing GEMINI_PRICING { input := 3/20, output := 3/5 } ("2.5-pro") := by
  have h1 : geminiGetModelPricing ("2.5-pro") = { input := 5/4, output := 10 } := rfl
  have h2 : claimFirstMatchPricing GEMINI_PRICING { input := 3/20, output := 3/5 } ("2.5-pro")
      = { input := 3/20, output := 3/5 } := rfl
  refine ⟨h1, h2, ?_⟩
  rw [h1, h2]
  intro h
  have hin := congrArg Pricing.input h
  norm_num at hin

/-- C5 (amended): for the xAI, OpenAI and Groq adapters the tier is
resolved exactly as the claim describes: the first table key, in
declaration order, that the model id contains (case-insensitively) wins,
with the vendor default when no key matches.  For the Gemini and Anthropic
adapters the same first-match-in-declaration-order lookup applies, except
that the vendor prefix (gemini- resp. claude-) is stripped from the table
key before the containment test.  The OpenRouter estimateCost ignores its
model id and always charges the fixed non-zero default tier (1, 2) per
million tokens.  All lookups are pure functions of the model id, hence
deterministic. -/
theorem c5_pricing_lookup_amended :
    (∀ modelId, xaiGetModelPricing modelId
        = claimFirstMatchPricing XAI_PRICING { input := 2, output := 10 } modelId)
    ∧ (∀ modelId, openaiGetModelPricing modelId
        = claimFirstMatchPricing OPENAI_PRICING { input := 5/2, output := 10 } modelId)
    ∧ (∀ modelId, groqGetModelPricing modelId
        = claimFirstMatchPricing GROQ_PRICING { input := 1/10, output := 1/10 } modelId)
    ∧ (∀ modelId, geminiGetModelPricing modelId
        = (match GEMINI_PRICING.find? (fun kv =>
              strContainsSub (strToLower modelId)
                (strReplaceFirst (strToLower kv.1) ("gemini-") (""))) with
           | some kv => kv.2
           | none => { input := 3/20, output := 3/5 }))
    ∧ (∀ modelId, anthropicGetModelPricing modelId
        = (match ANTHROPIC_PRICING.find? (fun kv =>
              strContainsSub (strToLower modelId)
                (strReplaceFirst kv.1 ("claude-") (""))) with
           | some kv => kv.2
           | none => { input := 3, output := 15 }))
    ∧ (∀ inputTokens outputTokens modelId,
        openrouterEstimateCost inputTokens outputTokens modelId
          = calculateCost inputTokens outputTokens 1 2)
    ∧ (1 : ℚ) ≠ 0 ∧ (2 : ℚ) ≠ 0 := by
  refine ⟨fun modelId => ?_, fun modelId => ?_, fun modelId => ?_, fun modelId => ?_,
    fun modelId => ?_, fun _ _ _ => rfl, by norm_num, by norm_num⟩
  · exact pricingLoop_eq_find _ XAI_PRICING _
  · exact pricingLoop_eq_find _ OPENAI_PRICING _
  · exact pricingLoop_eq_find _ GROQ_PRICING _
  · exact pricingLoop_eq_find _ GEMINI_PRICING _
  · exact pricingLoop_eq_find _ ANTHROPIC_PRICING _

/-- C6: when the active provider has no stored API key (missing or empty)
or no model is selected, Send fails immediately: `handleSend` returns
`none`, meaning the error banner is the only effect; no conversation
update, no adapter call and no network request happen, so the message list
is left unchanged. -/
theorem c6_send_config_guard (apiKey : Option String)
    (selectedModel selectedProvider : String) (conversation : Option Conversation)
    (content : String) (attachments : Option (List Attachment))
    (newConvId userMsgId asstMsgId : String) (now : Nat)
    (prefSystemPrompt : Option String) (fallbackPrompt : String)
    (h : optTruthy apiKey = false ∨ selectedModel = "") :
    handleSend apiKey selectedModel selectedProvider conversation content attachments
      newConvId userMsgId asstMsgId now prefSystemPrompt fallbackPrompt = none := by
  rcases h with h | h
  · simp [handleSend, h]
  · simp [handleSend, h]

/-- Witness for C6 with no stored key. -/
theorem c6_send_config_guard_witness :
    optTruthy none = false
    ∧ handleSend none ("gpt-4o") ("openai") none ("hi") none ("c1") ("u1") ("a1") 0
        none ("") = none :=
  ⟨rfl, c6_send_config_guard none ("gpt-4o") ("openai") none ("hi") none ("c1") ("u1")
    ("a1") 0 none ("") (Or.inl rfl)⟩

/-- C8: the token estimator returns exactly the ceiling of the text length
over four plus one thousand per attachment; in particular the
five-character text Hello with no attachments yields two tokens. -/
theorem c8_estimateTokens_formula :
    (∀ (text : String) (atts : List Attachment),
        estimateTokens text (some atts)
          = ⌈(strLength text : ℚ) / 4⌉₊ + 1000 * atts.length)
    ∧ (∀ text : String, estimateTokens text none = ⌈(strLength text : ℚ) / 4⌉₊)
    ∧ estimateTokens ("Hello") none = 2 := by
  refine ⟨?_, ?_, ?_⟩
  · intro text atts
    have h := estimateTokens_closed_form text (some atts)
    rw [ceil_quarter]
    simpa using h
  · intro text
    have h := estimateTokens_closed_form text none
    rw [ceil_quarter]
    simpa using h
  · have h := estimateTokens_closed_form ("Hello") none
    rw [h]
    rfl

/-- The lookup loop returns the fallback or a tier stored in the table. -/
theorem pricingLoop_mem (test : String → Bool) :
    ∀ (table : List (String × Pricing)) (dflt : Pricing),
      pricingLoop test table dflt = dflt
      ∨ ∃ kv ∈ table, pricingLoop test table dflt = kv.2
  | [], _ => Or.inl rfl
  | entry :: rest, dflt => by
    cases ht : test entry.1 with
    | true => exact Or.inr ⟨entry, by simp, by simp [pricingLoop, ht]⟩
    | false =>
      rcases pricingLoop_mem test rest dflt with h | ⟨kv, hm, he⟩
      · exact Or.inl (by simp [pricingLoop, ht, h])
      · exact Or.inr ⟨kv, by simp [hm], by simp [pricingLoop, ht, he]⟩

/-- A lookup over a table of non-negative tiers with a non-negative
fallback yields a non-negative tier. -/
theorem pricingLoop_nonneg (test : String → Bool) (table : List (String × Pricing))
    (dflt : Pricing) (htable : ∀ kv ∈ table, 0 ≤ kv.2.input ∧ 0 ≤ kv.2.output)
    (hdflt : 0 ≤ dflt.input ∧ 0 ≤ dflt.output) :
    0 ≤ (pricingLoop test table dflt).input ∧ 0 ≤ (pricingLoop test table dflt).output := by
  rcases pricingLoop_mem test table dflt with h | ⟨kv, hm, he⟩
  · rw [h]; exact hdflt
  · rw [he]; exact htable kv hm

/-- Every xAI table tier is non-negative. -/
theorem xai_table_nonneg : ∀ kv ∈ XAI_PRICING, 0 ≤ kv.2.input ∧ 0 ≤ kv.2.output := by
  intro kv hm
  fin_cases hm <;> exact ⟨by norm_num, by norm_num⟩

/-- Every OpenAI table tier is non-negative. -/
theorem openai_table_nonneg : ∀ kv ∈ OPENAI_PRICING, 0 ≤ kv.2.input ∧ 0 ≤ kv.2.output := by
  intro kv hm
  fin_cases hm <;> exact ⟨by norm_num, by norm_num⟩

/-- Every Groq table tier is non-negative. -/
theorem groq_table_nonneg : ∀ kv ∈ GROQ_PRICING, 0 ≤ kv.2.input ∧ 0 ≤ kv.2.output := by
  intro kv hm
  fin_cases hm <;> exact ⟨by norm_num, by norm_num⟩

/-- Every Gemini table tier is non-negative. -/
theorem gemini_table_nonneg : ∀ kv ∈ GEMINI_PRICING, 0 ≤ kv.2.input ∧ 0 ≤ kv.2.output := by
  intro kv hm
  fin_cases hm <;> exact ⟨by norm_num, by norm_num⟩

/-- Every Anthropic table tier is non-negative. -/
theorem anthropic_table_nonneg :
    ∀ kv ∈ ANTHROPIC_PRICING, 0 ≤ kv.2.input ∧ 0 ≤ kv.2.output := by
  intro kv hm
  fin_cases hm <;> exact ⟨by norm_num, by norm_num⟩

/-- The xAI tier of any model id is non-negative. -/
theorem xaiPricing_nonneg (modelId : String) :
    0 ≤ (xaiGetModelPricing modelId).input ∧ 0 ≤ (xaiGetModelPricing modelId).output :=
  pricingLoop_nonneg _ _ _ xai_table_nonneg ⟨by norm_num, by norm_num⟩

/-- The OpenAI tier of any model id is non-negative. -/
theorem openaiPricing_nonneg (modelId : String) :
    0 ≤ (openaiGetModelPricing modelId).input ∧ 0 ≤ (openaiGetModelPricing modelId).output :=
  pricingLoop_nonneg _ _ _ openai_table_nonneg ⟨by norm_num, by norm_num⟩

/-- The Groq tier of any model id is non-negative. -/
theorem groqPricing_nonneg (modelId : String) :
    0 ≤ (groqGetModelPricing modelId).input ∧ 0 ≤ (groqGetModelPricing modelId).output :=
  pricingLoop_nonneg _ _ _ groq_table_nonneg ⟨by norm_num, by norm_num⟩

/-- The Gemini tier of any model id is non-negative. -/
theorem geminiPricing_nonneg (modelId : String) :
    0 ≤ (geminiGetModelPricing modelId).input ∧ 0 ≤ (geminiGetModelPricing modelId).output :=
  pricingLoop_nonneg _ _ _ gemini_table_nonneg ⟨by norm_num, by norm_num⟩

/-- The Anthropic tier of any model id is non-negative. -/
theorem anthropicPricing_nonneg (modelId : String) :
    0 ≤ (anthropicGetModelPricing modelId).input
    ∧ 0 ≤ (anthropicGetModelPricing modelId).output :=
  pricingLoop_nonneg _ _ _ anthropic_table_nonneg ⟨by norm_num, by norm_num⟩

/-- The linear cost formula is monotone in both token counts when the
prices are non-negative. -/
theorem calculateCost_mono (i1 i2 o1 o2 pIn pOut : ℚ) (hpi : 0 ≤ pIn) (hpo : 0 ≤ pOut)
    (hi : i1 ≤ i2) (ho : o1 ≤ o2) :
    calculateCost i1 o1 pIn pOut ≤ calculateCost i2 o2 pIn pOut := by
  unfold calculateCost
  gcongr

/-- The linear cost formula is non-negative on non-negative inputs. -/
theorem calculateCost_nonneg (i o pIn pOut : ℚ) (hi : 0 ≤ i) (ho : 0 ≤ o)
    (hpi : 0 ≤ pIn) (hpo : 0 ≤ pOut) : 0 ≤ calculateCost i o pIn pOut := by
  unfold calculateCost
  have h1 : (0:ℚ) ≤ i / 1000000 := by positivity
  have h2 : (0:ℚ) ≤ o / 1000000 := by positivity
  exact add_nonneg (mul_nonneg h1 hpi) (mul_nonneg h2 hpo)

/-- C7: for every adapter and fixed model id, estimateCost is monotone
non-decreasing in the input and output token counts (stated over the
natural-number token counts of the claim, embedded into the rationals the
code computes with). -/
theorem c7_estimateCost_monotone (modelId : String) (i1 i2 o1 o2 : ℕ)
    (hi : i1 ≤ i2) (ho : o1 ≤ o2) :
    xaiEstimateCost i1 o1 modelId ≤ xaiEstimateCost i2 o2 modelId
    ∧ openaiEstimateCost i1 o1 modelId ≤ openaiEstimateCost i2 o2 modelId
    ∧ groqEstimateCost i1 o1 modelId ≤ groqEstimateCost i2 o2 modelId
    ∧ geminiEstimateCost i1 o1 modelId ≤ geminiEstimateCost i2 o2 modelId
    ∧ anthropicEstimateCost i1 o1 modelId ≤ anthropicEstimateCost i2 o2 modelId
    ∧ openrouterEstimateCost i1 o1 modelId ≤ openrouterEstimateCost i2 o2 modelId := by
  have hi2 : (i1 : ℚ) ≤ (i2 : ℚ) := by exact_mod_cast hi
  have ho2 : (o1 : ℚ) ≤ (o2 : ℚ) := by exact_mod_cast ho
  exact ⟨calculateCost_mono _ _ _ _ _ _ (xaiPricing_nonneg modelId).1
      (xaiPricing_nonneg modelId).2 hi2 ho2,
    calculateCost_mono _ _ _ _ _ _ (openaiPricing_nonneg modelId).1
      (openaiPricing_nonneg modelId).2 hi2 ho2,
    calculateCost_mono _ _ _ _ _ _ (groqPricing_nonneg modelId).1
      (groqPricing_nonneg modelId).2 hi2 ho2,
    calculateCost_mono _ _ _ _ _ _ (geminiPricing_nonneg modelId).1
      (geminiPricing_nonneg modelId).2 hi2 ho2,
    calculateCost_mono _ _ _ _ _ _ (anthropicPricing_nonneg modelId).1
      (anthropicPricing_nonneg modelId).2 hi2 ho2,
    calculateCost_mono _ _ _ _ _ _ (by norm_num) (by norm_num) hi2 ho2⟩

/-- Witness for C7 at concrete token counts and a model id absent from
every table. -/
theorem c7_estimateCost_monotone_witness :
    (1 : ℕ) ≤ 2 ∧ (3 : ℕ) ≤ 4
    ∧ (xaiEstimateCost 1 3 ("mystery-model") ≤ xaiEstimateCost 2 4 ("mystery-model")
      ∧ openaiEstimateCost 1 3 ("mystery-model") ≤ openaiEstimateCost 2 4 ("mystery-model")
      ∧ groqEstimateCost 1 3 ("mystery-model") ≤ groqEstimateCost 2 4 ("mystery-model")
      ∧ geminiEstimateCost 1 3 ("mystery-model") ≤ geminiEstimateCost 2 4 ("mystery-model")
      ∧ anthropicEstimateCost 1 3 ("mystery-model")
          ≤ anthropicEstimateCost 2 4 ("mystery-model")
      ∧ openrouterEstimateCost 1 3 ("mystery-model")
          ≤ openrouterEstimateCost 2 4 ("mystery-model")) :=
  ⟨by decide, by decide,
    by simpa using c7_estimateCost_monotone ("mystery-model") 1 2 3 4 (by decide) (by decide)⟩

/-- C10: for every adapter and every model id the pricing lookup is total
and yields a tier with non-negative prices, and estimateCost of
non-negative token counts is non-negative (totality is inherent: every
definition in this development is a total function, mirroring that the
lookup loop always returns and never throws). -/
theorem c10_estimateCost_total_nonneg (modelId : String) (i o : ℚ)
    (hi : 0 ≤ i) (ho : 0 ≤ o) :
    (0 ≤ (xaiGetModelPricing modelId).input ∧ 0 ≤ (xaiGetModelPricing modelId).output
      ∧ 0 ≤ xaiEstimateCost i o modelId)
    ∧ (0 ≤ (openaiGetModelPricing modelId).input ∧ 0 ≤ (openaiGetModelPricing modelId).output
      ∧ 0 ≤ openaiEstimateCost i o modelId)
    ∧ (0 ≤ (groqGetModelPricing modelId).input ∧ 0 ≤ (groqGetModelPricing modelId).output
      ∧ 0 ≤ groqEstimateCost i o modelId)
    ∧ (0 ≤ (geminiGetModelPricing modelId).input ∧ 0 ≤ (geminiGetModelPricing modelId).output
      ∧ 0 ≤ geminiEstimateCost i o modelId)
    ∧ (0 ≤ (anthropicGetModelPricing modelId).input
      ∧ 0 ≤ (anthropicGetModelPricing modelId).output
      ∧ 0 ≤ anthropicEstimateCost i o modelId)
    ∧ 0 ≤ openrouterEstimateCost i o modelId :=
  ⟨⟨(xaiPricing_nonneg modelId).1, (xaiPricing_nonneg modelId).2,
      calculateCost_nonneg _ _ _ _ hi ho (xaiPricing_nonneg modelId).1
        (xaiPricing_nonneg modelId).2⟩,
    ⟨(openaiPricing_nonneg modelId).1, (openaiPricing_nonneg modelId).2,
      calculateCost_nonneg _ _ _ _ hi ho (openaiPricing_nonneg modelId).1
        (openaiPricing_nonneg modelId).2⟩,
    ⟨(groqPricing_nonneg modelId).1, (groqPricing_nonneg modelId).2,
      calculateCost_nonneg _ _ _ _ hi ho (groqPricing_nonneg modelId).1
        (groqPricing_nonneg modelId).2⟩,
    ⟨(geminiPricing_nonneg modelId).1, (geminiPricing_nonneg modelId).2,
      calculateCost_nonneg _ _ _ _ hi ho (geminiPricing_nonneg modelId).1
        (geminiPricing_nonneg modelId).2⟩,
    ⟨(anthropicPricing_nonneg modelId).1, (anthropicPricing_nonneg modelId).2,
      calculateCost_nonneg _ _ _ _ hi ho (anthropicPricing_nonneg modelId).1
        (anthropicPricing_nonneg modelId).2⟩,
    calculateCost_nonneg _ _ _ _ hi ho (by norm_num) (by norm_num)⟩

/-- Witness for C10 at zero token counts and an unknown model id. -/
theorem c10_estimateCost_total_nonneg_witness :
    (0 ≤ (xaiGetModelPricing ("mystery-model")).input
      ∧ 0 ≤ (xaiGetModelPricing ("mystery-model")).output
      ∧ 0 ≤ xaiEstimateCost 0 0 ("mystery-model"))
    ∧ (0 ≤ (openaiGetModelPricing ("mystery-model")).input
      ∧ 0 ≤ (openaiGetModelPricing ("mystery-model")).output
      ∧ 0 ≤ openaiEstimateCost 0 0 ("mystery-model"))
    ∧ (0 ≤ (groqGetModelPricing ("mystery-model")).input
      ∧ 0 ≤ (groqGetModelPricing ("mystery-model")).output
      ∧ 0 ≤ groqEstimateCost 0 0 ("mystery-model"))
    ∧ (0 ≤ (geminiGetModelPricing ("mystery-model")).input
      ∧ 0 ≤ (geminiGetModelPricing ("mystery-model")).output
      ∧ 0 ≤ geminiEstimateCost 0 0 ("mystery-model"))
    ∧ (0 ≤ (anthropicGetModelPricing ("mystery-model")).input
      ∧ 0 ≤ (anthropicGetModelPricing ("mystery-model")).output
      ∧ 0 ≤ anthropicEstimateCost 0 0 ("mystery-model"))
    ∧ 0 ≤ openrouterEstimateCost 0 0 ("mystery-model") :=
  c10_estimateCost_total_nonneg ("mystery-model") 0 0 (le_refl 0) (le_refl 0)

/-- C3: with a key and a model configured, Retry on the user message at
index i finds it by id, truncates the conversation to messages[0..i]
(discarding every later assistant message) and appends exactly one freshly
created assistant placeholder with empty content, all before the network
request starts. -/
theorem c3_retry_truncates (conv : Conversation) (messageId : String) (i : Nat)
    (m : Message) (apiKey : Option String) (selectedModel asstMsgId : String) (now : Nat)
    (prefSystemPrompt : Option String) (retryFallbackPrompt : String)
    (hget : conv.messages[i]? = some m) (hid : m.id = messageId)
    (hrole : m.role = Role.user)
    (hfirst : ∀ j, j < i → ∀ b, conv.messages[j]? = some b → b.id ≠ messageId)
    (hkey : optTruthy apiKey = true) (hmodel : selectedModel ≠ "") :
    handleRetry (some conv) messageId apiKey selectedModel asstMsgId now
        prefSystemPrompt retryFallbackPrompt
      = some { conv := retryUpdatedConv conv i asstMsgId now,
               apiMessages := withSystemPromptPolicy conv.disableSystemPrompt
                   (chooseSystemPrompt prefSystemPrompt retryFallbackPrompt) now
                   (conv.messages.take (i + 1)),
               placeholderId := asstMsgId }
    ∧ (retryUpdatedConv conv i asstMsgId now).messages
        = conv.messages.take (i + 1) ++ [placeholderMessage asstMsgId now]
    ∧ (placeholderMessage asstMsgId now).role = Role.assistant
    ∧ (placeholderMessage asstMsgId now).content = "" := by
  have hfind : jsFindIndex (fun x => x.id == messageId) conv.messages = some i :=
    jsFindIndex_of_first _ conv.messages i m hget (by simp [hid])
      (fun j hj b hb => by simpa using hfirst j hj b hb)
  refine ⟨?_, rfl, rfl, rfl⟩
  simp [handleRetry, hfind, hkey, hmodel]
  rfl

/-- Witness for C3: retrying the first user message of a two-message
conversation drops the old assistant reply and installs the fresh empty
placeholder. -/
theorem c3_retry_truncates_witness :
    handleRetry
        (some { id := "c1", title := "t",
                messages := [{ id := "u1", role := Role.user, content := "hi", timestamp := 0 },
                             { id := "a1", role := Role.assistant, content := "old",
                               timestamp := 1 }],
                providerId := "openai", modelId := "gpt-4o", createdAt := 0, updatedAt := 0 })
        ("u1") (some ("k")) ("gpt-4o") ("a2") 5 none ("")
      = some { conv := retryUpdatedConv
                 { id := "c1", title := "t",
                   messages := [{ id := "u1", role := Role.user, content := "hi",
                                  timestamp := 0 },
                                { id := "a1", role := Role.assistant, content := "old",
                                  timestamp := 1 }],
                   providerId := "openai", modelId := "gpt-4o", createdAt := 0, updatedAt := 0 }
                 0 ("a2") 5,
               apiMessages := withSystemPromptPolicy none (chooseSystemPrompt none ("")) 5
                   ([{ id := "u1", role := Role.user, content := "hi", timestamp := 0 },
                     { id := "a1", role := Role.assistant, content := "old",
                       timestamp := 1 }].take 1),
               placeholderId := "a2" }
    ∧ (retryUpdatedConv
        { id := "c1", title := "t",
          messages := [{ id := "u1", role := Role.user, content := "hi", timestamp := 0 },
                       { id := "a1", role := Role.assistant, content := "old",
                         timestamp := 1 }],
          providerId := "openai", modelId := "gpt-4o", createdAt := 0, updatedAt := 0 }
        0 ("a2") 5).messages
      = [{ id := "u1", role := Role.user, content := "hi", timestamp := 0 },
         { id := "a1", role := Role.assistant, content := "old", timestamp := 1 }].take 1
        ++ [placeholderMessage ("a2") 5]
    ∧ (placeholderMessage ("a2") 5).role = Role.assistant
    ∧ (placeholderMessage ("a2") 5).content = "" :=
  c3_retry_truncates
    { id := "c1", title := "t",
      messages := [{ id := "u1", role := Role.user, content := "hi", timestamp := 0 },
                   { id := "a1", role := Role.assistant, content := "old", timestamp := 1 }],
      providerId := "openai", modelId := "gpt-4o", createdAt := 0, updatedAt := 0 }
    ("u1") 0 { id := "u1", role := Role.user, content := "hi", timestamp := 0 }
    (some ("k")) ("gpt-4o") ("a2") 5 none ("") rfl rfl rfl
    (fun j hj => absurd hj (Nat.not_lt_zero j)) rfl (by decide)

/-- C4: Continue-without-system-prompt reuses the id of the existing
placeholder assistant message (the id sent to the stream is an id already
present in the conversation; no new message is created), re-issues the
request with no system message in the outbound list (the outbound list is
the conversation history minus the placeholder, and contains no
system-role message), and the success callback persists
`disableSystemPrompt = true`; moreover no orchestrator conversation update
(Send append, Retry truncate, finalization) ever changes the flag, so it
is never auto-reset. -/
theorem c4_continue_without_system_prompt (conv : Conversation) (ms : List Message)
    (lastMsg : Message) (apiKey : Option String)
    (hmsgs : conv.messages = ms ++ [lastMsg]) (hrole : lastMsg.role = Role.assistant)
    (hkey : optTruthy apiKey = true)
    (hnosys : ∀ m ∈ conv.messages, m.role ≠ Role.system) :
    handleContinueWithoutSystemPrompt (some conv) apiKey
      = some { placeholderId := lastMsg.id, apiMessages := ms }
    ∧ lastMsg.id ∈ conv.messages.map (fun m => m.id)
    ∧ (∀ m ∈ ms, m.role ≠ Role.system)
    ∧ (∀ (c : Conversation) (pid resp : String) (ot : Nat) (d : ℚ) (sm : String) (cost : ℚ),
        (continueOnComplete c pid resp ot d sm cost).disableSystemPrompt = some true)
    ∧ (∀ (c : Conversation) (u a : Message) (ct sm sp : String) (n : Nat),
        (sendUpdatedConv c u a ct sm sp n).disableSystemPrompt = c.disableSystemPrompt)
    ∧ (∀ (c : Conversation) (idx : Nat) (aid : String) (n : Nat),
        (retryUpdatedConv c idx aid n).disableSystemPrompt = c.disableSystemPrompt)
    ∧ (∀ (c : Conversation) (pid resp : String) (ot : Nat) (d : ℚ) (sm : String) (cost : ℚ),
        (finalizeOnComplete c pid resp ot d sm cost).disableSystemPrompt
          = c.disableSystemPrompt) := by
  refine ⟨?_, ?_, ?_, fun _ _ _ _ _ _ _ => rfl, fun _ _ _ _ _ _ _ => rfl,
    fun _ _ _ _ => rfl, fun _ _ _ _ _ _ _ => rfl⟩
  · simp [handleContinueWithoutSystemPrompt, hmsgs, List.getLast?_concat, hrole, hkey,
      List.dropLast_concat]
  · rw [hmsgs]
    simp
  · intro m hm
    exact hnosys m (by rw [hmsgs]; exact List.mem_append_left _ hm)

/-- Witness for C4 on a two-message conversation whose second message is
the empty placeholder. -/
theorem c4_continue_without_system_prompt_witness :
    handleContinueWithoutSystemPrompt
        (some { id := "c1", title := "t",
                messages := [{ id := "u1", role := Role.user, content := "hi", timestamp := 0 },
                             { id := "a1", role := Role.assistant, content := "",
                               timestamp := 1 }],
                providerId := "gemini", modelId := "g", createdAt := 0, updatedAt := 0 })
        (some ("k"))
      = some { placeholderId := "a1",
               apiMessages := [{ id := "u1", role := Role.user, content := "hi",
                                 timestamp := 0 }] }
    ∧ ("a1" : String) ∈ ([{ id := "u1", role := Role.user, content := "hi", timestamp := 0 },
                          { id := "a1", role := Role.assistant, content := "",
                            timestamp := 1 }] : List Message).map (fun m => m.id)
    ∧ (∀ m ∈ ([{ id := "u1", role := Role.user, content := "hi", timestamp := 0 }] :
          List Message), m.role ≠ Role.system)
    ∧ (∀ (c : Conversation) (pid resp : String) (ot : Nat) (d : ℚ) (sm : String) (cost : ℚ),
        (continueOnComplete c pid resp ot d sm cost).disableSystemPrompt = some true)
    ∧ (∀ (c : Conversation) (u a : Message) (ct sm sp : String) (n : Nat),
        (sendUpdatedConv c u a ct sm sp n).disableSystemPrompt = c.disableSystemPrompt)
    ∧ (∀ (c : Conversation) (idx : Nat) (aid : String) (n : Nat),
        (retryUpdatedConv c idx aid n).disableSystemPrompt = c.disableSystemPrompt)
    ∧ (∀ (c : Conversation) (pid resp : String) (ot : Nat) (d : ℚ) (sm : String) (cost : ℚ),
        (finalizeOnComplete c pid resp ot d sm cost).disableSystemPrompt
          = c.disableSystemPrompt) :=
  c4_continue_without_system_prompt
    { id := "c1", title := "t",
      messages := [{ id := "u1", role := Role.user, content := "hi", timestamp := 0 },
                   { id := "a1", role := Role.assistant, content := "", timestamp := 1 }],
      providerId := "gemini", modelId := "g", createdAt := 0, updatedAt := 0 }
    [{ id := "u1", role := Role.user, content := "hi", timestamp := 0 }]
    { id := "a1", role := Role.assistant, content := "", timestamp := 1 }
    (some ("k")) rfl rfl rfl (by decide)

/-- Witness for C9: saving a new conversation into a one-element store
preserves uniqueness of the stored ids. -/
theorem c9_saveConversation_props_witness :
    (convIds [{ id := "a", title := "t", messages := [], providerId := "openai",
                modelId := "m", createdAt := 0, updatedAt := 0 }]).Nodup
    ∧ (convIds (saveConversation
        [{ id := "a", title := "t", messages := [], providerId := "openai",
           modelId := "m", createdAt := 0, updatedAt := 0 }]
        { id := "b", title := "u", messages := [], providerId := "xai",
          modelId := "n", createdAt := 1, updatedAt := 1 })).Nodup :=
  ⟨by decide,
    (c9_saveConversation_props
      [{ id := "a", title := "t", messages := [], providerId := "openai",
         modelId := "m", createdAt := 0, updatedAt := 0 }]
      { id := "b", title := "u", messages := [], providerId := "xai",
        modelId := "n", createdAt := 1, updatedAt := 1 }).2.1 (by decide)⟩
